import Mathlib

set_option maxHeartbeats 1000000

/- Shallow embedding of the shopping-api-tester core:
   src/api/dataforseo.py (transport retry, status-code validation, task
   submission, the polling loop) and src/utils/analysis.py (result
   normalisation and the title-quality heuristic).

   JSON values are modelled by an inductive type with integer numerics; the
   floating-point prices in item payloads never influence any property proved
   here.  Wall-clock time is passed explicitly: each polling iteration is fed
   the already-truncated elapsed value that int(time.time() - start) would
   produce, and each transport attempt is fed its scripted outcome. -/

/-- JSON-like Python values. Dict keys are assumed distinct, as produced by
json parsing of API responses. -/
inductive Json where
  | null
  | bool (b : Bool)
  | num (n : Int)
  | str (s : String)
  | arr (xs : List Json)
  | obj (fields : List (String × Json))

/-- Python exceptions that attribute access, indexing, iteration and dict
lookups can raise in the embedded code paths. -/
inductive PyExn where
  | attributeError
  | keyError
  | indexError
  | typeError
  deriving DecidableEq

/-- Python truthiness of a JSON value: None, False, 0, empty string, empty
list and empty dict are falsy, everything else is truthy. -/
def jTruthy : Json → Bool
  | .null => false
  | .bool b => b
  | .num n => n != 0
  | .str s => !(s == "")
  | .arr xs => !xs.isEmpty
  | .obj fs => !fs.isEmpty

/-- First-match association-list lookup, the dict lookup of the model. -/
def lookupField (fs : List (String × Json)) (k : String) : Option Json :=
  match fs with
  | [] => none
  | (k2, v) :: rest => if k2 == k then some v else lookupField rest k

/-- Python d.get(k): returns the stored value or None on a dict, raises
AttributeError on any non-dict receiver. -/
def pyGetAttr (j : Json) (k : String) : Except PyExn Json :=
  match j with
  | .obj fs => .ok ((lookupField fs k).getD .null)
  | _ => .error .attributeError

/-- Python d.get(k, default) on a dict; AttributeError on a non-dict. -/
def pyGetAttrD (j : Json) (k : String) (d : Json) : Except PyExn Json :=
  match j with
  | .obj fs => .ok ((lookupField fs k).getD d)
  | _ => .error .attributeError

/-- Python `a or b` specialised to a JSON left operand. -/
def pyOr (a b : Json) : Json := if jTruthy a then a else b

/-- Python x[0]: head of a list (IndexError when empty), one-character string
for a string, KeyError for a string-keyed dict (0 is never a key), TypeError
for the unsubscriptable scalars. -/
def pyIndex0 : Json → Except PyExn Json
  | .arr (x :: _) => .ok x
  | .arr [] => .error .indexError
  | .str s =>
    match s.data with
    | c :: _ => .ok (.str (String.mk [c]))
    | [] => .error .indexError
  | .obj _ => .error .keyError
  | _ => .error .typeError

/-- Python equality of a JSON value against an integer literal. In Python
True equals 1 and False equals 0; values of other types never equal an int. -/
def jsonEqInt (j : Json) (n : Int) : Bool :=
  match j with
  | .num m => m == n
  | .bool b => (if b then (1 : Int) else 0) == n
  | _ => false

/-- Python equality of a JSON value against a string literal. -/
def jsonEqStr (j : Json) (s : String) : Bool :=
  match j with
  | .str t => t == s
  | _ => false

/-- Python max(a, b) on ints (the tie case returns the first argument, which
for ints is an indistinguishable value). -/
def pyMax (a b : Int) : Int := if b ≤ a then a else b

/-- Python min(a, b) on ints. -/
def pyMin (a b : Int) : Int := if a ≤ b then a else b

/-- max on Nat, written out so that it reduces in the kernel. -/
def natMax (a b : Nat) : Nat := if a ≤ b then b else a

/-- min on Nat, written out so that it reduces in the kernel. -/
def natMin (a b : Nat) : Nat := if a ≤ b then a else b

/- ------------------------------------------------------------------ -/
/- Task poller: DataForSEOClient._wait_for_result, src/api/dataforseo.py.

   while True:
       last = self._get(get_path)
       tasks = last.get("tasks") or []
       if tasks and tasks[0].get("result"):
           return last
       elapsed = int(time.time() - start)
       if on_tick:
           on_tick(elapsed, int(max_wait_sec))
       if elapsed >= max_wait_sec:
           raise DataForSEOError("Timed out waiting for task result.")
       time.sleep(poll_every)                                           -/

/-- Outcome of the readiness test performed at the top of each polling
iteration. shapeError covers the responses on which the Python expression
tasks[0].get("result") itself raises (a truthy non-list "tasks" value, or a
first entry that is not a dict). -/
inductive ReadyCheck where
  | ready
  | notReady
  | shapeError
  deriving DecidableEq

/-- The readiness test: tasks = last.get("tasks") or []; then
tasks and tasks[0].get("result"), with Python truthiness. -/
def firstTaskCheck (resp : Json) : ReadyCheck :=
  match pyGetAttr resp "tasks" with
  | .error _ => .shapeError
  | .ok tv =>
    let tasks := if jTruthy tv then tv else Json.arr []
    if jTruthy tasks then
      match tasks with
      | .arr (t :: _) =>
        match pyGetAttr t "result" with
        | .error _ => .shapeError
        | .ok rv => if jTruthy rv then .ready else .notReady
      | _ => .shapeError
    else .notReady

/-- Terminal outcome of the polling loop over a finite scripted trace. -/
inductive PollResult where
  | ready (resp : Json)
  | timedOut (msg : String)
  | shapeError
  | exhausted

/-- The polling loop over a scripted trace of (GET response, truncated elapsed
seconds) pairs, one pair per iteration. Returns the outcome, the list of
elapsed values passed to on_tick (the tick fires on every non-ready iteration,
including the final over-budget one, before the deadline check), and the
number of time.sleep calls (one per non-ready iteration that survived the
deadline check). -/
def wait_for_result (maxWaitSec : Int) : List (Json × Int) → PollResult × List Int × Nat
  | [] => (.exhausted, [], 0)
  | (resp, elapsed) :: rest =>
    match firstTaskCheck resp with
    | .ready => (.ready resp, [], 0)
    | .shapeError => (.shapeError, [], 0)
    | .notReady =>
      if maxWaitSec ≤ elapsed then
        (.timedOut "Timed out waiting for task result.", [elapsed], 0)
      else
        let r := wait_for_result maxWaitSec rest
        (r.1, elapsed :: r.2.1, r.2.2 + 1)

/- ------------------------------------------------------------------ -/
/- Transport layer: DataForSEOClient._post and _get, src/api/dataforseo.py.

   Both are wrapped in
     @retry(retry=retry_if_exception_type((requests.RequestException,
                                           DataForSEOError)),
            wait=wait_exponential(multiplier=1, min=1, max=8),
            stop=stop_after_attempt(N), reraise=True)
   with N = 5 for _post and N = 7 for _get. The body raises for HTTP errors
   (raise_for_status) and then checks data.get("status_code") against the
   accepted tuple, raising DataForSEOError otherwise.                    -/

/-- What one HTTP attempt yields before status-code validation: either a
requests.RequestException (network failure, non-2xx status from
raise_for_status, or a JSON decode failure) or a parsed JSON body. -/
inductive TransportOutcome where
  | netError (msg : String)
  | httpOk (data : Json)

/-- Errors a single _post/_get attempt can raise. transport models
requests.RequestException; apiStatus models
DataForSEOError("API status: {status_code} {status_message}") and carries the
two JSON values interpolated into that message; shapeError models the
AttributeError raised by data.get when the parsed body is not a dict. -/
inductive CallError where
  | transport (msg : String)
  | apiStatus (code : Json) (statusMessage : Json)
  | shapeError

/-- The tenacity retry predicate:
retry_if_exception_type((requests.RequestException, DataForSEOError)).
AttributeError matches neither class and propagates without retry. -/
def retryable : CallError → Bool
  | .transport _ => true
  | .apiStatus _ _ => true
  | .shapeError => false

/-- Accepted status codes for _post: data.get("status_code") in
(20000, 20100, 40500). -/
def acceptedPost (sc : Json) : Bool :=
  jsonEqInt sc 20000 || jsonEqInt sc 20100 || jsonEqInt sc 40500

/-- Accepted status codes for _get: data.get("status_code") in (20000,). -/
def acceptedGet (sc : Json) : Bool :=
  jsonEqInt sc 20000

/-- One _post attempt applied to its transport outcome: propagate transport
errors, otherwise validate the status code and return the body unchanged. -/
def post_body (o : TransportOutcome) : Except CallError Json :=
  match o with
  | .netError m => .error (.transport m)
  | .httpOk data =>
    match data with
    | .obj fs =>
      if acceptedPost ((lookupField fs "status_code").getD .null) then
        .ok (Json.obj fs)
      else
        .error (.apiStatus ((lookupField fs "status_code").getD .null)
                           ((lookupField fs "status_message").getD .null))
    | _ => .error .shapeError

/-- One _get attempt applied to its transport outcome. -/
def get_body (o : TransportOutcome) : Except CallError Json :=
  match o with
  | .netError m => .error (.transport m)
  | .httpOk data =>
    match data with
    | .obj fs =>
      if acceptedGet ((lookupField fs "status_code").getD .null) then
        .ok (Json.obj fs)
      else
        .error (.apiStatus ((lookupField fs "status_code").getD .null)
                           ((lookupField fs "status_message").getD .null))
    | _ => .error .shapeError

/-- The tenacity driver over a scripted list of per-attempt transport
outcomes: run the body; on success stop; on a matching exception with
attempts remaining, wait and re-attempt; on a non-matching exception, or once
stop_after_attempt is reached, re-raise the exception of this last attempt
unmodified (reraise=True). Returns the final result paired with the number of
attempts consumed; none when the scripted trace is shorter than the run. -/
def retryCall (body : TransportOutcome → Except CallError Json) :
    Nat → List TransportOutcome → Option (Except CallError Json × Nat)
  | _, [] => none
  | 0, _ :: _ => none
  | n + 1, o :: rest =>
    match body o with
    | .ok d => some (.ok d, 1)
    | .error e =>
      if retryable e = true ∧ 0 < n then
        match retryCall body n rest with
        | some (r, used) => some (r, used + 1)
        | none => none
      else
        some (.error e, 1)

/-- _post with its decorator: stop_after_attempt(5). -/
def post_call (outs : List TransportOutcome) : Option (Except CallError Json × Nat) :=
  retryCall post_body 5 outs

/-- _get with its decorator: stop_after_attempt(7). -/
def get_call (outs : List TransportOutcome) : Option (Except CallError Json × Nat) :=
  retryCall get_body 7 outs

/-- Seconds waited after the n-th failed attempt (n starting at 1), from
wait_exponential(multiplier=1, min=1, max=8): an exponential in the attempt
number, scaled by the multiplier and clamped into [min, max]. -/
def tenacityWait (n : Nat) : Nat := natMax 1 (natMin (2 ^ n) 8)

/- ------------------------------------------------------------------ -/
/- Task submission: search_products / get_product_info, src/api/dataforseo.py.

   payload = [{..., "depth": max(10, min(depth, 100))}]
   post = self._post(path, payload)
   task_id = post["tasks"][0]["id"]                                     -/

/-- The depth clamp in search_products: max(10, min(depth, 100)). -/
def clampDepth (depth : Int) : Int := pyMax 10 (pyMin depth 100)

/-- The one-element request list that search_products posts. -/
def search_products_payload (keyword : String) (locationCode : Int)
    (languageCode : String) (depth : Int) : Json :=
  .arr [.obj [("keyword", .str keyword),
              ("location_code", .num locationCode),
              ("language_code", .str languageCode),
              ("depth", .num (clampDepth depth))]]

/-- Python d[k] on a dict: the value, or KeyError when the key is missing;
TypeError when the receiver is subscripted with a string but is a list, a
string or a scalar. -/
def dictIndex (j : Json) (k : String) : Except PyExn Json :=
  match j with
  | .obj fs =>
    match lookupField fs k with
    | some v => .ok v
    | none => .error .keyError
  | _ => .error .typeError

/-- task_id = post["tasks"][0]["id"] on a status-validated POST response. -/
def extract_task_id (post : Json) : Except PyExn Json :=
  match dictIndex post "tasks" with
  | .error e => .error e
  | .ok ts =>
    match pyIndex0 ts with
    | .error e => .error e
    | .ok t0 => dictIndex t0 "id"

/-- Failure of the submission pipeline: either an error raised inside the
retry-wrapped transport call (requests exception or DataForSEOError), or a
plain Python exception raised by the task-id extraction, which runs outside
the decorated call. -/
inductive SubmitError where
  | call (e : CallError)
  | py (e : PyExn)

/-- The submission pipeline of search_products / get_product_info up to the
task handle: the retry-wrapped POST followed by the undecorated
post["tasks"][0]["id"] extraction. The attempt count records how many POST
attempts the transport made. -/
def search_submit (outs : List TransportOutcome) :
    Option (Except SubmitError Json × Nat) :=
  match post_call outs with
  | none => none
  | some (.error e, n) => some (.error (.call e), n)
  | some (.ok data, n) =>
    match extract_task_id data with
    | .error e => some (.error (.py e), n)
    | .ok tid => some (.ok tid, n)

/- ------------------------------------------------------------------ -/
/- Result normalizer: parse_shopping_results and _safe_price,
   src/utils/analysis.py.                                              -/

/-- Substring test on character lists: does the needle occur contiguously in
the haystack. -/
def listHasSub (needle : List Char) : List Char → Bool
  | [] => needle.isEmpty
  | c :: cs => needle.isPrefixOf (c :: cs) || listHasSub needle cs

/-- Python `needle in hay` on strings: substring containment. -/
def strContains (hay needle : String) : Bool :=
  listHasSub needle.data hay.data

/-- Python s.lower(), written over the character list so that it reduces in
the kernel; Char.toLower covers the ASCII range the titles use. -/
def pyLower (s : String) : String := String.mk (s.data.map Char.toLower)

/-- Python `k in x` for the membership test "tasks" not in api_response:
key membership on a dict, element equality on a list, substring containment
on a string, TypeError on the non-iterable scalars. -/
def pyInKey (k : String) (j : Json) : Except PyExn Bool :=
  match j with
  | .obj fs => .ok (lookupField fs k).isSome
  | .arr xs => .ok (xs.any (fun x => jsonEqStr x k))
  | .str s => .ok (strContains s k)
  | _ => .error .typeError

/-- Python iteration for the items loop: lists yield their elements, strings
their one-character substrings, dicts their keys; scalars raise TypeError. -/
def pyIter : Json → Except PyExn (List Json)
  | .arr xs => .ok xs
  | .str s => .ok (s.data.map (fun c => Json.str (String.mk [c])))
  | .obj fs => .ok (fs.map (fun f => Json.str f.1))
  | _ => .error .typeError

/-- Python len(x) for lists, strings and dicts; TypeError otherwise. -/
def pyLen : Json → Except PyExn Nat
  | .arr xs => .ok xs.length
  | .str s => .ok s.length
  | .obj fs => .ok fs.length
  | _ => .error .typeError

/-- Python float(x) on the int/float/bool branch of _safe_price; numerics are
modelled as integers, so the conversion is the identity on num and maps bool
through its Python int value. -/
def pyFloat : Json → Json
  | .num n => .num n
  | .bool b => .num (if b then 1 else 0)
  | j => j

/-- _safe_price(item): a dict price yields (price.get("current"),
price.get("currency")); an int/float (or bool, a Python int subtype) yields
(float(p), item.get("currency")); anything else yields
(None, item.get("currency")). -/
def safe_price (item : Json) : Except PyExn (Json × Json) :=
  match pyGetAttr item "price" with
  | .error e => .error e
  | .ok p =>
    match p with
    | .obj pfs =>
      .ok ((lookupField pfs "current").getD .null,
           (lookupField pfs "currency").getD .null)
    | .num n =>
      match pyGetAttr item "currency" with
      | .error e => .error e
      | .ok c => .ok (pyFloat (.num n), c)
    | .bool b =>
      match pyGetAttr item "currency" with
      | .error e => .error e
      | .ok c => .ok (pyFloat (.bool b), c)
    | _ =>
      match pyGetAttr item "currency" with
      | .error e => .error e
      | .ok c => .ok (.null, c)

/-- One normalised output row, with the fields of the dict appended to out in
parse_shopping_results. -/
structure Row where
  position : Json
  title : Json
  domain : Json
  price : Json
  currency : Json
  rating : Json
  reviews : Json
  product_id : Json
  url : Json
  images_count : Nat
  has_description : Bool
  has_highlights : Bool

/-- The accepted item types set of parse_shopping_results. -/
def acceptTypes : List String :=
  ["google_shopping_product", "shopping_product", "product", "google_shopping_serp"]

/-- The row built from one accepted item (the body of the items loop after
the type filter). -/
def buildRow (it : Json) : Except PyExn Row := do
  let pc ← safe_price it
  let u1 ← pyGetAttr it "url"
  let u2 ← pyGetAttr it "shopping_url"
  let p1 ← pyGetAttr it "product_id"
  let p2 ← pyGetAttr it "data_docid"
  let p3 ← pyGetAttr it "gid"
  let d1 ← pyGetAttr it "domain"
  let d2 ← pyGetAttr it "seller"
  let d3 ← pyGetAttr it "shop_name"
  let pr ← pyGetAttr it "product_rating"
  let rating ← pyGetAttr (pyOr pr (Json.obj [])) "value"
  let v1 ← pyGetAttr it "votes_count"
  let v2 ← pyGetAttr it "reviews_count"
  let i1 ← pyGetAttr it "product_images"
  let i2 ← pyGetAttr it "images"
  let icount ← pyLen (pyOr (pyOr i1 i2) (Json.arr []))
  let de1 ← pyGetAttr it "description"
  let de2 ← pyGetAttr it "product_description"
  let h1 ← pyGetAttr it "product_highlights"
  let h2 ← pyGetAttr it "highlights"
  let h3 ← pyGetAttr it "features"
  let pos ← pyGetAttr it "rank_absolute"
  let ttl ← pyGetAttr it "title"
  pure { position := pos, title := ttl,
         domain := pyOr (pyOr d1 d2) d3,
         price := pc.1, currency := pc.2,
         rating := rating,
         reviews := pyOr v1 v2,
         product_id := pyOr (pyOr p1 p2) p3,
         url := pyOr u1 u2,
         images_count := icount,
         has_description := jTruthy (pyOr de1 de2),
         has_highlights := jTruthy (pyOr (pyOr h1 h2) h3) }

/-- The items loop: skip items whose type is outside the accepted set, build
a row for the rest, propagating any Python exception. -/
def buildRows : List Json → Except PyExn (List Row)
  | [] => .ok []
  | it :: rest =>
    match pyGetAttr it "type" with
    | .error e => .error e
    | .ok ty =>
      if acceptTypes.any (fun s => jsonEqStr ty s) then
        match buildRow it with
        | .error e => .error e
        | .ok r =>
          match buildRows rest with
          | .error e => .error e
          | .ok rs => .ok (r :: rs)
      else buildRows rest

/-- str(x) applied to a domain cell by astype(str). The source only ever
relies on this for string cells; scalar cells follow the Python rendering and
container cells are abbreviated, a difference no verified property touches. -/
def pyStr : Json → String
  | .null => "None"
  | .bool b => if b then "True" else "False"
  | .num n => toString n
  | .str s => s
  | .arr _ => "[...]"
  | .obj _ => "\x7b...\x7d"

/-- The regex replace of the leading URL scheme, r"^https?://". -/
def stripScheme (s : String) : String :=
  if s.startsWith "http://" then s.drop 7
  else if s.startsWith "https://" then s.drop 8
  else s

/-- .str.split("/").str[0]: everything before the first slash. -/
def firstSegment (s : String) : String := String.mk (s.data.takeWhile (· ≠ '/'))

/-- The per-row domain cleanup applied by the dataframe stage. -/
def cleanDomain (r : Row) : Row :=
  { r with domain := .str (firstSegment (stripScheme (pyStr r.domain))) }

/-- Sort key for sort_values("position", na_position="last"): numeric
positions compare by value, anything else sorts with the missing values at
the end (pandas treats NaN so; non-numeric cells cannot arise from
rank_absolute in practice and are grouped with the missing values here). -/
def posKey (r : Row) : Option Int :=
  match r.position with
  | .num n => some n
  | _ => none

/-- Comparison of two sort keys with the missing values last. -/
def posLe (a b : Option Int) : Bool :=
  match a, b with
  | some x, some y => x ≤ y
  | some _, none => true
  | none, some _ => false
  | none, none => true

/-- Insertion into a position-sorted list. -/
def insertByPos (r : Row) : List Row → List Row
  | [] => [r]
  | x :: xs => if posLe (posKey r) (posKey x) then r :: x :: xs else x :: insertByPos r xs

/-- sort_values("position", na_position="last").reset_index(drop=True),
modelled as an insertion sort (the verified properties never reach a
non-empty frame, so the tie order pandas chooses is immaterial). -/
def sortByPos : List Row → List Row
  | [] => []
  | r :: rs => insertByPos r (sortByPos rs)

/-- The dataframe stage that runs only on a non-empty out list: domain
cleanup, then the position sort. -/
def finalizeRows (rows : List Row) : List Row :=
  sortByPos (rows.map cleanDomain)

/-- parse_shopping_results(api_response): the defensive extraction of
tasks[0].result[0].items, the type-filtered row construction, and the
dataframe finalisation, with every Python exception made explicit. The empty
dataframe is the empty row list. -/
def parse_shopping_results (resp : Json) : Except PyExn (List Row) :=
  if jTruthy resp = false then .ok [] else
  match pyInKey "tasks" resp with
  | .error e => .error e
  | .ok false => .ok []
  | .ok true =>
    match pyGetAttrD resp "tasks" (Json.arr []) with
    | .error e => .error e
    | .ok tv =>
      if jTruthy tv = false then .ok [] else
      match pyIndex0 tv with
      | .error e => .error e
      | .ok t0 =>
        match pyGetAttr t0 "result" with
        | .error e => .error e
        | .ok rv =>
          let results := pyOr rv (Json.arr [])
          if jTruthy results = false then .ok [] else
          match pyIndex0 results with
          | .error e => .error e
          | .ok r0 =>
            match pyGetAttr r0 "items" with
            | .error e => .error e
            | .ok iv =>
              match pyIter (pyOr iv (Json.arr [])) with
              | .error e => .error e
              | .ok itemsL =>
                match buildRows itemsL with
                | .error e => .error e
                | .ok out =>
                  if out.isEmpty then .ok [] else .ok (finalizeRows out)

/- ------------------------------------------------------------------ -/
/- Title heuristic: calculate_title_quality_score, src/utils/analysis.py. -/

/-- The whitespace class of Python str.split() restricted to the ASCII
whitespace characters (space, tab, newline, carriage return, vertical tab,
form feed); the Unicode extension never changes a property proved here. -/
def pyIsSpace (c : Char) : Bool :=
  c == ' ' || c == '\t' || c == '\n' || c == '\r' || c == '\x0b' || c == '\x0c'

/-- Worker for str.split(): split on runs of whitespace, discarding empty
pieces; acc holds the reversed characters of the word in progress. -/
def pySplitWsAux : List Char → List Char → List String
  | [], acc => if acc.isEmpty then [] else [String.mk acc.reverse]
  | c :: cs, acc =>
    if pyIsSpace c then
      if acc.isEmpty then pySplitWsAux cs []
      else String.mk acc.reverse :: pySplitWsAux cs []
    else pySplitWsAux cs (c :: acc)

/-- Python title.split() with no separator argument. -/
def pySplitWs (s : String) : List String := pySplitWsAux s.data []

/-- The attribute keywords list of calculate_title_quality_score. -/
def attrsList : List String :=
  ["size", "color", "colour", "cm", "mm", "inch", "ml", "l ", "kg", " g"]

/-- title.split()[0][:1].isupper(): the first character of a word, tested for
uppercase (str.isupper on a one-character slice; an empty slice is never
produced because split() drops empty pieces). -/
def firstCharUpper (w : String) : Bool :=
  match w.data with
  | [] => false
  | c :: _ => c.isUpper

/-- calculate_title_quality_score(title). The caps-ratio comparison
sum(isupper)/max(1, len) < 0.5 is expressed exactly over the integers as
2 * sum(isupper) < max(1, len); title.split()[0] raises IndexError when the
title is non-empty but consists only of whitespace. -/
def calculate_title_quality_score (title : String) : Except PyExn Int :=
  if title = "" then .ok 0
  else
    let n := title.length
    let lenScore : Int := if 70 ≤ n ∧ n ≤ 150 then 30 else if 50 ≤ n then 15 else 0
    let ws := pySplitWs title
    let wcScore : Int := if 8 ≤ ws.length then 25 else if 5 ≤ ws.length then 15 else 0
    let attrScore : Int :=
      if attrsList.any (fun k => strContains (pyLower title) k) then 20 else 0
    let capsScore : Int :=
      if 2 * (title.data.filter Char.isUpper).length < natMax 1 n then 15 else 0
    match ws with
    | [] => .error .indexError
    | w :: _ =>
      let headScore : Int := if firstCharUpper w then 10 else 0
      .ok (pyMin (lenScore + wcScore + attrScore + capsScore + headScore) 100)

/- ------------------------------------------------------------------ -/
/- Claim-side reference definitions and sample inputs.                  -/

/-- Reading of claim C6 as written: the first task entry of the response has
a "result" FIELD PRESENT, regardless of the value stored under it. -/
def resultKeyPresent (resp : Json) : Bool :=
  match resp with
  | .obj fs =>
    match lookupField fs "tasks" with
    | some (.arr (t :: _)) =>
      match t with
      | .obj tfs => (lookupField tfs "result").isSome
      | _ => false
    | _ => false
  | _ => false

/-- Amended completion signal: the first task entry carries a result value
that is present AND truthy (non-null, non-empty). -/
def resultTruthy (resp : Json) : Bool :=
  match resp with
  | .obj fs =>
    match lookupField fs "tasks" with
    | some (.arr (t :: _)) =>
      match t with
      | .obj tfs => jTruthy ((lookupField tfs "result").getD .null)
      | _ => false
    | _ => false
  | _ => false

/-- Inputs on which claim C8 applies: some level of the path
tasks[0].result[0].items is missing, null or empty, every level above it
being well-shaped. Level three: the items value. -/
def brokenItems : Json → Bool
  | .null => true
  | .arr [] => true
  | _ => false

/-- Level two: the result value of the first task entry. -/
def brokenResult : Json → Bool
  | .null => true
  | .arr [] => true
  | .arr (r :: _) =>
    (match r with
     | .obj rfs =>
       match lookupField rfs "items" with
       | none => true
       | some i => brokenItems i
     | _ => false)
  | _ => false

/-- Level one: the tasks value of the response. -/
def brokenTasks : Json → Bool
  | .null => true
  | .arr [] => true
  | .arr (t :: _) =>
    (match t with
     | .obj tfs =>
       match lookupField tfs "result" with
       | none => true
       | some r => brokenResult r
     | _ => false)
  | _ => false

/-- Level zero: the response itself. -/
def brokenPath (resp : Json) : Bool :=
  match resp with
  | .null => true
  | .obj fs =>
    (match lookupField fs "tasks" with
     | none => true
     | some tval => brokenTasks tval)
  | _ => false

/-- A pending poll response: the result field is present but null, the shape
the spec scenario uses for a task that is still running. -/
def samplePending : Json :=
  .obj [("status_code", .num 20000), ("tasks", .arr [.obj [("result", Json.null)]])]

/-- A completed poll response with a non-empty result list. -/
def sampleReady : Json :=
  .obj [("status_code", .num 20000),
        ("tasks", .arr [.obj [("result", .arr [.obj [("items", .arr [])]])]])]

/-- A POST response that passes status-code validation but has an empty tasks
list, so that tasks[0] raises IndexError during task-id extraction. -/
def noIdResponse : Json :=
  .obj [("status_code", .num 20000), ("tasks", .arr [])]

/-- A response with a rejected status code. -/
def badStatusResponse : Json :=
  .obj [("status_code", .num 40000), ("status_message", .str "err")]

/- ------------------------------------------------------------------ -/
/- Helper lemmas.                                                      -/

/-- A prefix of pending, in-budget iterations contributes one tick and one
sleep each and leaves the loop running on the remainder of the trace. -/
lemma wait_pending_run (maxW : Int) (pre rest : List (Json × Int))
    (hpre : ∀ p ∈ pre, firstTaskCheck p.1 = ReadyCheck.notReady ∧ p.2 < maxW) :
    wait_for_result maxW (pre ++ rest) =
      ((wait_for_result maxW rest).1,
       pre.map Prod.snd ++ (wait_for_result maxW rest).2.1,
       pre.length + (wait_for_result maxW rest).2.2) := by
  induction pre with
  | nil => simp
  | cons p ps ih =>
    obtain ⟨hc, hlt⟩ := hpre p (by simp)
    have hrec := ih (fun q hq => hpre q (by simp [hq]))
    cases p with
    | mk resp e =>
      simp only [List.cons_append, wait_for_result, hc]
      rw [if_neg (not_le.mpr hlt)]
      simp [hrec]
      omega

/-- Only a response that passes the readiness test can be the payload of a
ready outcome. -/
lemma ready_outcome_check (maxW : Int) (trace : List (Json × Int)) (r : Json)
    (h : (wait_for_result maxW trace).1 = PollResult.ready r) :
    firstTaskCheck r = ReadyCheck.ready := by
  induction trace with
  | nil => simp [wait_for_result] at h
  | cons p rest ih =>
    cases p with
    | mk resp e =>
      simp only [wait_for_result] at h
      cases hc : firstTaskCheck resp with
      | ready =>
        rw [hc] at h
        simp at h
        rw [← h]
        exact hc
      | notReady =>
        rw [hc] at h
        by_cases hd : maxW ≤ e
        · simp [hd] at h
        · simp [hd] at h
          exact ih h
      | shapeError =>
        rw [hc] at h
        simp at h

/-- Retry exhaustion: a run of matching failures of exactly the remaining
attempt budget consumes the whole budget and re-raises the final error
unmodified. -/
lemma retry_exhaust (body : TransportOutcome → Except CallError Json)
    (pre : List TransportOutcome) (o : TransportOutcome)
    (rest : List TransportOutcome) (e : CallError)
    (hpre : ∀ p ∈ pre, ∃ e2, body p = .error e2 ∧ retryable e2 = true)
    (he : body o = .error e) :
    retryCall body (pre.length + 1) (pre ++ o :: rest) =
      some (.error e, pre.length + 1) := by
  induction pre with
  | nil => simp [retryCall, he]
  | cons p ps ih =>
    obtain ⟨e2, hb, hr⟩ := hpre p (by simp)
    have hrec := ih (fun q hq => hpre q (by simp [hq]))
    simp only [List.length_cons, List.cons_append, retryCall, hb, hr,
      Nat.succ_pos, and_true, if_pos, hrec]
    simp [hrec]

/- ------------------------------------------------------------------ -/
/- Claims.                                                             -/

/-- C1: for every poll trace whose first N responses are pending (no truthy
result in the first task entry) inside the time budget and whose (N+1)-th
response is ready, the loop returns exactly that (N+1)-th response unchanged,
invokes on_tick exactly N times (once per pending iteration, never on the
iteration that returns), and sleeps N times. -/
theorem poll_ready_after_n_pending (maxW : Int) (pre : List (Json × Int))
    (respN : Json) (eN : Int) (rest : List (Json × Int))
    (hpre : ∀ p ∈ pre, firstTaskCheck p.1 = ReadyCheck.notReady ∧ p.2 < maxW)
    (hrdy : firstTaskCheck respN = ReadyCheck.ready) :
    wait_for_result maxW (pre ++ (respN, eN) :: rest) =
      (PollResult.ready respN, pre.map Prod.snd, pre.length) := by
  rw [wait_pending_run maxW pre _ hpre]
  simp [wait_for_result, hrdy]

/-- Witness for C1: one pending response then a ready one, inside a 180
second budget: the ready response is returned and exactly one tick fired. -/
theorem poll_ready_after_n_pending_witness :
    wait_for_result 180 [(samplePending, 0), (sampleReady, 2)] =
      (PollResult.ready sampleReady, [0], 1) :=
  poll_ready_after_n_pending 180 [(samplePending, 0)] sampleReady 2 []
    (by decide) (by decide)

/-- C2: for every poll trace that never becomes ready, with the pending
iterations before the deadline strictly inside the budget and the final
pending iteration at a truncated elapsed of at least maxWaitSeconds, the loop
raises the timeout error with its exact message, and the tick trace contains
that final over-budget elapsed value as its last entry — the tick fires
before the deadline check raises. -/
theorem poll_timeout_after_budget (maxW : Int) (pre : List (Json × Int))
    (respK : Json) (eK : Int) (rest : List (Json × Int))
    (hpre : ∀ p ∈ pre, firstTaskCheck p.1 = ReadyCheck.notReady ∧ p.2 < maxW)
    (hK : firstTaskCheck respK = ReadyCheck.notReady)
    (heK : maxW ≤ eK) :
    wait_for_result maxW (pre ++ (respK, eK) :: rest) =
      (PollResult.timedOut "Timed out waiting for task result.",
       pre.map Prod.snd ++ [eK], pre.length) := by
  rw [wait_pending_run maxW pre _ hpre]
  simp [wait_for_result, hK, heK]

/-- Witness for C2: budget of 3 seconds, pending at elapsed 0 and again at
elapsed 3: timeout raised, with the over-budget tick (3, not less than 3)
reported last. -/
theorem poll_timeout_after_budget_witness :
    wait_for_result 3 [(samplePending, 0), (samplePending, 3)] =
      (PollResult.timedOut "Timed out waiting for task result.", [0, 3], 1) :=
  poll_timeout_after_budget 3 [(samplePending, 0)] samplePending 3 []
    (by decide) (by decide) (by decide)

/-- C9: the loop always issues its first GET before evaluating the deadline:
with maxWaitSeconds at most 0 and a non-negative truncated elapsed value, a
ready first response is still returned, and a pending first response yields
exactly one tick followed by the timeout error, with no sleep. -/
theorem first_poll_before_deadline (maxW e : Int) (resp : Json)
    (rest : List (Json × Int)) (hm : maxW ≤ 0) (he : 0 ≤ e) :
    (firstTaskCheck resp = ReadyCheck.ready →
      wait_for_result maxW ((resp, e) :: rest) = (PollResult.ready resp, [], 0)) ∧
    (firstTaskCheck resp = ReadyCheck.notReady →
      wait_for_result maxW ((resp, e) :: rest) =
        (PollResult.timedOut "Timed out waiting for task result.", [e], 0)) := by
  have hge : maxW ≤ e := le_trans hm he
  constructor
  · intro h
    simp [wait_for_result, h]
  · intro h
    simp [wait_for_result, h, hge]

/-- Witness for C9: a zero budget still issues the first GET; a pending first
response produces one tick and the timeout, without sleeping. -/
theorem first_poll_before_deadline_witness :
    wait_for_result 0 [(samplePending, 0)] =
      (PollResult.timedOut "Timed out waiting for task result.", [0], 0) :=
  (first_poll_before_deadline 0 0 samplePending [] (by decide) (by decide)).2
    (by decide)

/-- C5: the depth placed in the search_products request body is the clamp of
the input depth, the clamp always lies in [10, 100], and it is the identity
on inputs already in [10, 100]. -/
theorem depth_clamped_in_payload (keyword languageCode : String)
    (locationCode depth : Int) :
    search_products_payload keyword locationCode languageCode depth =
      Json.arr [Json.obj [("keyword", .str keyword),
                          ("location_code", .num locationCode),
                          ("language_code", .str languageCode),
                          ("depth", .num (clampDepth depth))]] ∧
    10 ≤ clampDepth depth ∧ clampDepth depth ≤ 100 ∧
    (10 ≤ depth → depth ≤ 100 → clampDepth depth = depth) := by
  refine ⟨rfl, ?_, ?_, ?_⟩ <;> simp only [clampDepth, pyMax, pyMin] <;>
    split_ifs <;> omega

/-- Witness for C5: depth 42 is inside the band and survives unclamped. -/
theorem depth_clamped_in_payload_witness : clampDepth 42 = 42 :=
  (depth_clamped_in_payload "" "" 2826 42).2.2.2 (by decide) (by decide)

/-- C6 counterexample: a response whose first task entry has the result field
PRESENT but null. The claim as stated says the poller must transition to
READY and return this response; the code treats it as still pending, so a
zero-budget poll times out instead of returning it. -/
theorem result_key_presence_not_ready :
    resultKeyPresent samplePending = true ∧
    wait_for_result 0 [(samplePending, 0)] =
      (PollResult.timedOut "Timed out waiting for task result.", [0], 0) :=
  ⟨rfl, rfl⟩

/-- C6 amended: the completion signal is a result value that is present AND
truthy (non-null, non-empty) in the first task entry; such a response is
returned immediately with no tick. A result field that is present but falsy
still counts as pending, and the loop never returns that response as ready. -/
theorem truthy_result_completion_signal (resp : Json) (e : Int)
    (rest : List (Json × Int)) (maxW : Int) :
    (resultTruthy resp = true →
      wait_for_result maxW ((resp, e) :: rest) = (PollResult.ready resp, [], 0)) ∧
    (resultKeyPresent resp = true → resultTruthy resp = false →
      firstTaskCheck resp = ReadyCheck.notReady ∧
      (wait_for_result maxW ((resp, e) :: rest)).1 ≠ PollResult.ready resp) := by
  constructor
  · intro h
    have hr : firstTaskCheck resp = ReadyCheck.ready := by
      cases resp with
      | obj fs =>
        cases hl : lookupField fs "tasks" with
        | none => simp [resultTruthy, hl] at h
        | some tv =>
          cases tv with
          | arr xs =>
            cases xs with
            | nil => simp [resultTruthy, hl] at h
            | cons t ts =>
              cases t with
              | obj tfs =>
                simp only [resultTruthy, hl] at h
                have htr : jTruthy (Json.arr (Json.obj tfs :: ts)) = true := by
                  simp [jTruthy]
                simp [firstTaskCheck, pyGetAttr, hl, htr, h]
              | null => simp [resultTruthy, hl] at h
              | bool b => simp [resultTruthy, hl] at h
              | num n => simp [resultTruthy, hl] at h
              | str s => simp [resultTruthy, hl] at h
              | arr ys => simp [resultTruthy, hl] at h
          | null => simp [resultTruthy, hl] at h
          | bool b => simp [resultTruthy, hl] at h
          | num n => simp [resultTruthy, hl] at h
          | str s => simp [resultTruthy, hl] at h
          | obj gs => simp [resultTruthy, hl] at h
      | null => simp [resultTruthy] at h
      | bool b => simp [resultTruthy] at h
      | num n => simp [resultTruthy] at h
      | str s => simp [resultTruthy] at h
      | arr xs => simp [resultTruthy] at h
    simp [wait_for_result, hr]
  · intro hk hf
    have hnr : firstTaskCheck resp = ReadyCheck.notReady := by
      cases resp with
      | obj fs =>
        cases hl : lookupField fs "tasks" with
        | none => simp [resultKeyPresent, hl] at hk
        | some tv =>
          cases tv with
          | arr xs =>
            cases xs with
            | nil => simp [resultKeyPresent, hl] at hk
            | cons t ts =>
              cases t with
              | obj tfs =>
                simp only [resultTruthy, hl] at hf
                have htr : jTruthy (Json.arr (Json.obj tfs :: ts)) = true := by
                  simp [jTruthy]
                simp [firstTaskCheck, pyGetAttr, hl, htr, hf]
              | null => simp [resultKeyPresent, hl] at hk
              | bool b => simp [resultKeyPresent, hl] at hk
              | num n => simp [resultKeyPresent, hl] at hk
              | str s => simp [resultKeyPresent, hl] at hk
              | arr ys => simp [resultKeyPresent, hl] at hk
          | null => simp [resultKeyPresent, hl] at hk
          | bool b => simp [resultKeyPresent, hl] at hk
          | num n => simp [resultKeyPresent, hl] at hk
          | str s => simp [resultKeyPresent, hl] at hk
          | obj gs => simp [resultKeyPresent, hl] at hk
      | null => simp [resultKeyPresent] at hk
      | bool b => simp [resultKeyPresent] at hk
      | num n => simp [resultKeyPresent] at hk
      | str s => simp [resultKeyPresent] at hk
      | arr xs => simp [resultKeyPresent] at hk
    refine ⟨hnr, fun hcontra => ?_⟩
    have := ready_outcome_check maxW ((resp, e) :: rest) resp hcontra
    rw [this] at hnr
    exact ReadyCheck.noConfusion hnr

/-- Witness for C6 amended: a response with a truthy result list is returned
at once with no tick. -/
theorem truthy_result_completion_signal_witness :
    wait_for_result 180 [(sampleReady, 0)] = (PollResult.ready sampleReady, [], 0) :=
  (truthy_result_completion_signal sampleReady 0 [] 180).1 rfl

/-- C7 counterexample: a POST response that passes status-code validation but
has an empty tasks list. The claim says submission fails with the transport
layer error kind; the code instead raises the plain Python IndexError from
post["tasks"][0] (a SubmitError.py value, not a SubmitError.call one), and
that failure is indeed not retried: only one POST attempt is consumed even
though a second scripted outcome is available. -/
theorem missing_task_id_error_kind :
    search_submit [.httpOk noIdResponse, .httpOk noIdResponse] =
      some (.error (.py PyExn.indexError), 1) := rfl

/-- C7 amended: a status-validated POST response lacking tasks[0].id makes
submission fail with the plain Python exception of the extraction (KeyError,
IndexError or TypeError, outside the retry-decorated transport call and
distinct from its requests/DataForSEOError kinds), and the POST is not
re-attempted: exactly one transport attempt is consumed regardless of how
many further outcomes the trace holds. -/
theorem missing_task_id_not_retried (data : Json)
    (rest : List TransportOutcome) (e : PyExn)
    (hok : post_body (.httpOk data) = .ok data)
    (hex : extract_task_id data = .error e) :
    search_submit (.httpOk data :: rest) = some (.error (.py e), 1) := by
  simp [search_submit, post_call, retryCall, hok, hex]

/-- Witness for C7 amended: the empty-tasks response, one scripted outcome. -/
theorem missing_task_id_not_retried_witness :
    search_submit [.httpOk noIdResponse] =
      some (.error (.py PyExn.indexError), 1) :=
  missing_task_id_not_retried noIdResponse [] .indexError rfl rfl

/-- C3: the accepted status sets are exactly the claimed ones (POST accepts
20000, 20100 and 40500, GET accepts only 20000); a response outside the set
makes the attempt raise the DataForSEOError carrying the status code and
message of the response, that error matches the retry predicate, and while
attempts remain the transport call is attempted again on the next scripted
outcome; the backoff wait after every failed attempt is at least the 1 second
floor, at most the 8 second cap, and non-decreasing from attempt to attempt. -/
theorem status_code_gate_and_retry :
    (∀ sc : Json, acceptedPost sc = true ↔
      (sc = .num 20000 ∨ sc = .num 20100 ∨ sc = .num 40500)) ∧
    (∀ sc : Json, acceptedGet sc = true ↔ sc = .num 20000) ∧
    (∀ (fs : List (String × Json)) (rest : List TransportOutcome) (k : Nat),
      acceptedPost ((lookupField fs "status_code").getD .null) = false →
      post_body (.httpOk (.obj fs)) =
        .error (.apiStatus ((lookupField fs "status_code").getD .null)
                           ((lookupField fs "status_message").getD .null)) ∧
      retryable (.apiStatus ((lookupField fs "status_code").getD .null)
                            ((lookupField fs "status_message").getD .null)) = true ∧
      retryCall post_body (k + 2) (.httpOk (.obj fs) :: rest) =
        (retryCall post_body (k + 1) rest).map (fun p => (p.1, p.2 + 1))) ∧
    (∀ (fs : List (String × Json)) (rest : List TransportOutcome) (k : Nat),
      acceptedGet ((lookupField fs "status_code").getD .null) = false →
      get_body (.httpOk (.obj fs)) =
        .error (.apiStatus ((lookupField fs "status_code").getD .null)
                           ((lookupField fs "status_message").getD .null)) ∧
      retryable (.apiStatus ((lookupField fs "status_code").getD .null)
                            ((lookupField fs "status_message").getD .null)) = true ∧
      retryCall get_body (k + 2) (.httpOk (.obj fs) :: rest) =
        (retryCall get_body (k + 1) rest).map (fun p => (p.1, p.2 + 1))) ∧
    (∀ outs, post_call outs = retryCall post_body 5 outs ∧
             get_call outs = retryCall get_body 7 outs) ∧
    (∀ n : Nat, 1 ≤ tenacityWait n ∧ tenacityWait n ≤ 8 ∧
      tenacityWait n ≤ tenacityWait (n + 1)) := by
  refine ⟨?_, ?_, ?_, ?_, fun outs => ⟨rfl, rfl⟩, ?_⟩
  · intro sc
    cases sc with
    | num m => simp [acceptedPost, jsonEqInt]; tauto
    | bool b => cases b <;> simp [acceptedPost, jsonEqInt]
    | null => simp [acceptedPost, jsonEqInt]
    | str s => simp [acceptedPost, jsonEqInt]
    | arr xs => simp [acceptedPost, jsonEqInt]
    | obj fs => simp [acceptedPost, jsonEqInt]
  · intro sc
    cases sc with
    | num m => simp [acceptedGet, jsonEqInt]
    | bool b => cases b <;> simp [acceptedGet, jsonEqInt]
    | null => simp [acceptedGet, jsonEqInt]
    | str s => simp [acceptedGet, jsonEqInt]
    | arr xs => simp [acceptedGet, jsonEqInt]
    | obj fs => simp [acceptedGet, jsonEqInt]
  · intro fs rest k h
    have hb : post_body (.httpOk (.obj fs)) =
        .error (.apiStatus ((lookupField fs "status_code").getD .null)
                           ((lookupField fs "status_message").getD .null)) := by
      simp [post_body, h]
    refine ⟨hb, rfl, ?_⟩
    cases hm : retryCall post_body (k + 1) rest with
    | none => simp [retryCall, hb, retryable, hm]
    | some p =>
      cases p with
      | mk r used => simp [retryCall, hb, retryable, hm]
  · intro fs rest k h
    have hb : get_body (.httpOk (.obj fs)) =
        .error (.apiStatus ((lookupField fs "status_code").getD .null)
                           ((lookupField fs "status_message").getD .null)) := by
      simp [get_body, h]
    refine ⟨hb, rfl, ?_⟩
    cases hm : retryCall get_body (k + 1) rest with
    | none => simp [retryCall, hb, retryable, hm]
    | some p =>
      cases p with
      | mk r used => simp [retryCall, hb, retryable, hm]
  · intro n
    have hpow : (2 : Nat) ^ n ≤ 2 ^ (n + 1) :=
      Nat.pow_le_pow_right (by omega) (by omega)
    refine ⟨?_, ?_, ?_⟩ <;> simp only [tenacityWait, natMax, natMin] <;>
      split_ifs <;> omega

/-- Witness for C3: a response with rejected status 40000 raises the
API-status error and a fresh attempt is made on the next scripted outcome. -/
theorem status_code_gate_and_retry_witness :
    post_body (.httpOk badStatusResponse) =
      .error (.apiStatus (Json.num 40000) (Json.str "err")) ∧
    retryable (.apiStatus (Json.num 40000) (Json.str "err")) = true ∧
    retryCall post_body 2 [.httpOk badStatusResponse, .httpOk badStatusResponse] =
      (retryCall post_body 1 [.httpOk badStatusResponse]).map
        (fun p => (p.1, p.2 + 1)) :=
  status_code_gate_and_retry.2.2.1
    [("status_code", Json.num 40000), ("status_message", Json.str "err")]
    [.httpOk badStatusResponse] 0 (by decide)

/-- C4: the attempt ceiling is exactly 5 for the POST transport and 7 for the
GET transport; when every attempt fails with a retry-matching error up to the
last one, the whole budget is consumed and the error of the final attempt
propagates to the caller unmodified, the same CallError value with the same
carried message. -/
theorem retry_ceilings_and_propagation :
    (∀ (pre : List TransportOutcome) (o : TransportOutcome)
       (rest : List TransportOutcome) (e : CallError),
      pre.length = 4 →
      (∀ p ∈ pre, ∃ e2, post_body p = .error e2 ∧ retryable e2 = true) →
      post_body o = .error e →
      post_call (pre ++ o :: rest) = some (.error e, 5)) ∧
    (∀ (pre : List TransportOutcome) (o : TransportOutcome)
       (rest : List TransportOutcome) (e : CallError),
      pre.length = 6 →
      (∀ p ∈ pre, ∃ e2, get_body p = .error e2 ∧ retryable e2 = true) →
      get_body o = .error e →
      get_call (pre ++ o :: rest) = some (.error e, 7)) := by
  constructor
  · intro pre o rest e hlen hpre he
    have h := retry_exhaust post_body pre o rest e hpre he
    rw [hlen] at h
    exact h
  · intro pre o rest e hlen hpre he
    have h := retry_exhaust get_body pre o rest e hpre he
    rw [hlen] at h
    exact h

/-- Witness for C4: four failing POST attempts then a fifth distinct failure
exhaust the POST ceiling and surface the fifth error unchanged; six failing
GET attempts then a seventh do the same for the GET ceiling. -/
theorem retry_ceilings_and_propagation_witness :
    post_call [.netError "a", .netError "a", .netError "a", .netError "a",
               .netError "z"] =
      some (.error (.transport "z"), 5) ∧
    get_call [.netError "a", .netError "a", .netError "a", .netError "a",
              .netError "a", .netError "a", .netError "z"] =
      some (.error (.transport "z"), 7) := by
  constructor
  · exact retry_ceilings_and_propagation.1
      [.netError "a", .netError "a", .netError "a", .netError "a"]
      (.netError "z") [] (.transport "z") rfl
      (by intro p hp; simp at hp; subst hp; exact ⟨.transport "a", rfl, rfl⟩) rfl
  · exact retry_ceilings_and_propagation.2
      [.netError "a", .netError "a", .netError "a", .netError "a",
       .netError "a", .netError "a"]
      (.netError "z") [] (.transport "z") rfl
      (by intro p hp; simp at hp; subst hp; exact ⟨.transport "a", rfl, rfl⟩) rfl

/-- C8: whenever any level of the path tasks[0].result[0].items is missing,
null or empty, parse_shopping_results returns the empty dataframe and raises
no exception. -/
theorem broken_path_yields_empty_frame (resp : Json)
    (h : brokenPath resp = true) :
    parse_shopping_results resp = .ok [] := by
  cases resp with
  | null => rfl
  | bool b => simp [brokenPath] at h
  | num n => simp [brokenPath] at h
  | str s => simp [brokenPath] at h
  | arr xs => simp [brokenPath] at h
  | obj fs =>
    by_cases hfs : fs = []
    · subst hfs; rfl
    · have hft : jTruthy (Json.obj fs) = true := by
        simp [jTruthy, hfs]
      cases hl : lookupField fs "tasks" with
      | none => simp [parse_shopping_results, hft, pyInKey, hl]
      | some tv =>
        simp only [brokenPath, hl] at h
        cases tv with
        | null => simp [parse_shopping_results, hft, pyInKey, hl, pyGetAttrD, jTruthy]
        | bool b => simp [brokenTasks] at h
        | num n => simp [brokenTasks] at h
        | str s => simp [brokenTasks] at h
        | obj gs => simp [brokenTasks] at h
        | arr xs =>
          cases xs with
          | nil => simp [parse_shopping_results, hft, pyInKey, hl, pyGetAttrD, jTruthy]
          | cons t ts =>
            simp only [brokenTasks] at h
            cases t with
            | null => simp at h
            | bool b => simp at h
            | num n => simp at h
            | str s => simp at h
            | arr ys => simp at h
            | obj tfs =>
              cases hl2 : lookupField tfs "result" with
              | none =>
                simp [parse_shopping_results, hft, pyInKey, hl, pyGetAttrD,
                  jTruthy, pyIndex0, pyGetAttr, hl2, pyOr]
              | some rv =>
                simp only [hl2] at h
                cases rv with
                | null =>
                  simp [parse_shopping_results, hft, pyInKey, hl, pyGetAttrD,
                    jTruthy, pyIndex0, pyGetAttr, hl2, pyOr]
                | bool b => simp [brokenResult] at h
                | num n => simp [brokenResult] at h
                | str s => simp [brokenResult] at h
                | obj hs => simp [brokenResult] at h
                | arr rs =>
                  cases rs with
                  | nil =>
                    simp [parse_shopping_results, hft, pyInKey, hl, pyGetAttrD,
                      jTruthy, pyIndex0, pyGetAttr, hl2, pyOr]
                  | cons r0 rrest =>
                    simp only [brokenResult] at h
                    cases r0 with
                    | null => simp at h
                    | bool b => simp at h
                    | num n => simp at h
                    | str s => simp at h
                    | arr zs => simp at h
                    | obj rfs =>
                      cases hl3 : lookupField rfs "items" with
                      | none =>
                        simp [parse_shopping_results, hft, pyInKey, hl, pyGetAttrD,
                          jTruthy, pyIndex0, pyGetAttr, hl2, hl3, pyOr, pyIter,
                          buildRows]
                      | some iv =>
                        simp only [hl3] at h
                        cases iv with
                        | null =>
                          simp [parse_shopping_results, hft, pyInKey, hl, pyGetAttrD,
                            jTruthy, pyIndex0, pyGetAttr, hl2, hl3, pyOr, pyIter,
                            buildRows]
                        | bool b => simp [brokenItems] at h
                        | num n => simp [brokenItems] at h
                        | str s => simp [brokenItems] at h
                        | obj ks => simp [brokenItems] at h
                        | arr is2 =>
                          cases is2 with
                          | nil =>
                            simp [parse_shopping_results, hft, pyInKey, hl,
                              pyGetAttrD, jTruthy, pyIndex0, pyGetAttr, hl2, hl3,
                              pyOr, pyIter, buildRows]
                          | cons i irest => simp [brokenItems] at h

/-- Witness for C8: a response whose tasks list is present but empty parses
to the empty dataframe. -/
theorem broken_path_yields_empty_frame_witness :
    parse_shopping_results (Json.obj [("tasks", Json.arr [])]) = .ok [] :=
  broken_path_yields_empty_frame (Json.obj [("tasks", Json.arr [])]) (by decide)

/-- C10 counterexample: a title consisting of a single space is truthy, so it
passes the emptiness guard, but title.split() is empty and title.split()[0]
raises IndexError — the function does not return a score for every string. -/
theorem whitespace_title_raises :
    calculate_title_quality_score " " = .error PyExn.indexError := rfl

/-- C10 amended: calculate_title_quality_score raises IndexError exactly on
the non-empty all-whitespace titles; on every other string it returns an
integer score in [0, 100], and the empty title scores 0. -/
theorem title_score_bounds (t : String) :
    (calculate_title_quality_score t = .error PyExn.indexError ↔
      (t ≠ "" ∧ pySplitWs t = [])) ∧
    (∀ r : Int, calculate_title_quality_score t = .ok r → 0 ≤ r ∧ r ≤ 100) ∧
    calculate_title_quality_score "" = .ok 0 := by
  refine ⟨?_, ?_, rfl⟩
  · by_cases ht : t = ""
    · subst ht
      simp [calculate_title_quality_score]
    · cases hws : pySplitWs t with
      | nil => simp [calculate_title_quality_score, ht, hws]
      | cons w rest => simp [calculate_title_quality_score, ht, hws]
  · intro r hr
    by_cases ht : t = ""
    · subst ht
      simp [calculate_title_quality_score] at hr
      omega
    · cases hws : pySplitWs t with
      | nil => simp [calculate_title_quality_score, ht, hws] at hr
      | cons w rest =>
        simp [calculate_title_quality_score, pyMin, ht, hws] at hr
        split_ifs at hr <;> omega

/-- Witness for C10 amended: a concrete well-formed title scores 60, inside
the claimed range. -/
theorem title_score_bounds_witness : (0 : Int) ≤ 60 ∧ (60 : Int) ≤ 100 :=
  (title_score_bounds "Blue Widget size 10 cm long").2.1 60 rfl
